import Mathlib

/-!
Verification of the AppSheet client library (request construction, selector
builder, retry-based request executor, response interpretation, facade
operations) against its natural-language specification.

The JavaScript source is shallowly embedded: JavaScript values are modelled
by the inductive `JsVal`, the network transport is an explicit function from
the serialized payload and the attempt index to either a thrown exception
(`Except.error`) or an HTTP response, JavaScript `throw` is `Except.error`,
and the retry `while` loop is a well-founded recursion on the remaining
attempt budget. Each definition mirrors one function of the source.
-/

namespace AppSheet

/-- A JavaScript value, as far as this library inspects one: `null`,
`undefined`, booleans, (integer) numbers, strings, arrays and plain objects
(ordered key/value lists). -/
inductive JsVal where
  | jNull : JsVal
  | jUndefined : JsVal
  | jBool : Bool → JsVal
  | jNum : Int → JsVal
  | jStr : String → JsVal
  | jArr : List JsVal → JsVal
  | jObj : List (String × JsVal) → JsVal

/-- JavaScript truthiness of a `JsVal`: `null`, `undefined`, `false`, `0` and
`""` are falsy; every array and object (including the empty ones) is truthy. -/
def truthy : JsVal → Bool
  | .jNull => false
  | .jUndefined => false
  | .jBool b => b
  | .jNum n => n != 0
  | .jStr s => s != ""
  | .jArr _ => true
  | .jObj _ => true

/-- Model of `normalizeRecords` (src/unnamed/part_001 lines 21-24): falsy input gives
`[]`; an array is returned as is; anything else is wrapped in a one-element
array. -/
def normalizeRecords (input : JsVal) : List JsVal :=
  if !truthy input then []
  else match input with
    | .jArr l => l
    | v => [v]

/-- Property lookup on a JavaScript object literal, first matching key wins. -/
def lookupField : List (String × JsVal) → String → Option JsVal
  | [], _ => none
  | (k, v) :: rest, key => if k = key then some v else lookupField rest key

/-- Model of `parseRowsReturned` (src/unnamed/part_001 lines 37-45): the length of an
array content, else the length of a `rows` array property on an object
content, else `0`.  (Truthy non-objects have no `rows` property; falsy values
fail the `content &&` guard; both land in the final `0` case.) -/
def parseRowsReturned (content : JsVal) : Nat :=
  match content with
  | .jArr l => l.length
  | .jObj fields =>
    match lookupField fields "rows" with
    | some (.jArr r) => r.length
    | _ => 0
  | _ => 0

/-- The JavaScript test `orderBy.startsWith("[")`: the first character of the
string is the opening bracket. -/
def startsWithBracket (s : String) : Bool :=
  match s.data with
  | [] => false
  | c :: _ => c = '['

/-- The selector-construction portion of `find` (src/unnamed/part_001 lines
88-100, identically src/main.js lines 89-101): `filterCondition || "TRUE"`,
the `Filter(...)` base, the `if (orderBy)` wrap with bracketing and the
`TRUE`/`FALSE` ascending literal, and the `Top(...)` wrap for a positive
numeric limit.  `none` models an absent (`undefined`) argument. -/
def buildSelector (tableName : String) (filterCondition : Option String)
    (orderBy : Option String) (desc : Bool) (limit : Option Int) : String :=
  let filter := match filterCondition with
    | some s => if s = "" then "TRUE" else s
    | none => "TRUE"
  let sel1 := "Filter(" ++ tableName ++ ", " ++ filter ++ ")"
  let sel2 := match orderBy with
    | some ob =>
      if ob = "" then sel1
      else
        let col := if startsWithBracket ob then ob else "[" ++ ob ++ "]"
        let isAsc := if desc then "FALSE" else "TRUE"
        "OrderBy(" ++ sel1 ++ ", " ++ col ++ ", " ++ isAsc ++ ")"
    | none => sel1
  match limit with
  | some n => if n > 0 then "Top(" ++ sel2 ++ ", " ++ toString n ++ ")" else sel2
  | none => sel2

/-- An HTTP response as exposed by the fetch service: status code and body
text. -/
structure HttpResp where
  code : Int
  body : String

/-- The JSON payload object sent to the API, as an ordered field list. -/
abbrev Payload := List (String × JsVal)

/-- The network: given the payload and the 0-based attempt index, either
throws (`Except.error` carries the stringified exception) or returns an HTTP
response.  `UrlFetchApp.fetch` with `muteHttpExceptions: true` returns
normally on every HTTP status code; only transport-level failures throw. -/
abbrev Transport := Payload → Nat → Except String HttpResp

/-- Payload construction in `makeRequest` (src/unnamed/part_001 lines
242-249): `{Action, Rows}` always; `Properties: {Selector: selector}` is
added only under the truthy guard `if (selector)`. -/
def buildPayload (action : String) (rows : List JsVal) (selector : Option String) :
    Payload :=
  let base := [("Action", JsVal.jStr action), ("Rows", JsVal.jArr rows)]
  match selector with
  | some s => if s = "" then base else
      base ++ [("Properties", JsVal.jObj [("Selector", JsVal.jStr s)])]
  | none => base

/-- The terminal error message thrown after retry exhaustion
(src/unnamed/part_001 line 271). -/
def errMsg (maxRetries : Nat) (e : String) : String :=
  "AppSheet API failed after " ++ toString maxRetries ++ " attempts: " ++ e

/-- The retry `while` loop of `makeRequest` (src/unnamed/part_001 lines
261-275): while `attempts < maxRetries`, call the transport; on success break
with the response; on a thrown exception increment `attempts` and either
throw the terminal error (when the ceiling is reached) or sleep and loop.
The second component counts the network calls issued since attempt 0.
If the loop is never entered (`maxRetries = 0`) the subsequent
`response.getResponseCode()` dereferences `undefined`; that throw is modelled
as the error below. -/
def fetchLoop (t : Nat → Except String HttpResp) (maxRetries : Nat)
    (attempts : Nat) : Except String HttpResp × Nat :=
  if h : attempts < maxRetries then
    match t attempts with
    | .ok r => (.ok r, attempts + 1)
    | .error e =>
      if attempts + 1 ≥ maxRetries then
        (.error (errMsg maxRetries e), attempts + 1)
      else
        fetchLoop t maxRetries (attempts + 1)
  else
    (.error "TypeError: response is undefined", attempts)
termination_by maxRetries - attempts

/-- The response-body handling of `makeRequest` (src/unnamed/part_001 lines
279-285): `try JSON.parse` and on a thrown parse error fall back to
`contentText || null`.  The behaviour of `JSON.parse` itself is abstracted as
the function `parse` (returning `none` when it throws). -/
def interpretContent (parse : String → Option JsVal) (body : String) : JsVal :=
  match parse body with
  | some j => j
  | none => if body = "" then .jNull else .jStr body

/-- The `{code, content, rowsReturned}` result object. -/
structure ApiResponse where
  code : Int
  content : JsVal
  rowsReturned : Nat

/-- The response-interpretation tail of `makeRequest` (src/unnamed/part_001
lines 277-289): take the status code, parse the body with the raw-text/null
fallback, and compute `rowsReturned` from the resulting content. -/
def interpretResponse (parse : String → Option JsVal) (r : HttpResp) :
    ApiResponse :=
  let content := interpretContent parse r.body
  { code := r.code, content := content,
    rowsReturned := parseRowsReturned content }

/-- Model of `makeRequest` (src/unnamed/part_001 lines 239-290): build the payload,
run the retry loop, then interpret the response.  Returns the result (or the
propagated thrown error) together with the number of network calls issued. -/
def makeRequest (parse : String → Option JsVal) (transport : Transport)
    (maxRetries : Nat) (action : String) (rows : List JsVal)
    (selector : Option String) : Except String ApiResponse × Nat :=
  let payload := buildPayload action rows selector
  match fetchLoop (transport payload) maxRetries 0 with
  | (.error e, n) => (.error e, n)
  | (.ok r, n) => (.ok (interpretResponse parse r), n)

/-- Model of `find` (src/unnamed/part_001 lines 88-110): build the selector and issue
a `Find` action with no rows. -/
def find (parse : String → Option JsVal) (transport : Transport)
    (maxRetries : Nat) (tableName : String) (filterCondition : Option String)
    (orderBy : Option String) (desc : Bool) (limit : Option Int) :
    Except String ApiResponse × Nat :=
  makeRequest parse transport maxRetries "Find" []
    (some (buildSelector tableName filterCondition orderBy desc limit))

/-- The filter string built by `findByKey` (src/main.js line 126): the
template literal `[${keyColumn}] = "${keyValue}"`, plain concatenation with
no escaping. -/
def findByKeyFilter (keyColumn keyValue : String) : String :=
  "[" ++ keyColumn ++ "] = \"" ++ keyValue ++ "\""

/-- The JavaScript test `result.content.length > 0` (src/main.js line 128):
arrays and strings have a numeric `length`; on every other value `length` is
`undefined` and the comparison is false. -/
def contentLengthPos : JsVal → Bool
  | .jArr l => decide (0 < l.length)
  | .jStr s => decide (0 < s.length)
  | _ => false

/-- The JavaScript expression `result.content[0]` (src/main.js line 128):
first element of an array, one-character string for a string, `undefined`
otherwise. -/
def contentAtZero : JsVal → JsVal
  | .jArr [] => .jUndefined
  | .jArr (v :: _) => v
  | .jStr s => if s = "" then .jUndefined else .jStr (s.take 1)
  | _ => .jUndefined

/-- Model of `findByKey` (src/main.js lines 125-130): issue a `find` with the
concatenated key filter; pass a non-200 result through unchanged; otherwise
replace `content` by the first element (or `null`) and recompute
`rowsReturned` as `match ? 1 : 0`. -/
def findByKey (parse : String → Option JsVal) (transport : Transport)
    (maxRetries : Nat) (tableName keyColumn keyValue : String) :
    Except String ApiResponse × Nat :=
  match find parse transport maxRetries tableName
      (some (findByKeyFilter keyColumn keyValue)) none false none with
  | (.error e, n) => (.error e, n)
  | (.ok result, n) =>
    if result.code ≠ 200 then (.ok result, n)
    else
      let m := if contentLengthPos result.content then contentAtZero result.content
               else .jNull
      (.ok { result with
               content := m,
               rowsReturned := if truthy m then 1 else 0 }, n)

/-- The check `!appId || typeof appId !== "string" || appId.length === 0`
(src/unnamed/part_001 line 199) passes exactly on non-empty strings. -/
def isNonEmptyStr : JsVal → Bool
  | .jStr s => s != ""
  | _ => false

/-- The region check (src/unnamed/part_001 line 205): strict equality with
one of the two accepted host literals. -/
def isValidRegion : JsVal → Bool
  | .jStr s => s == "www.appsheet.com" || s == "eu.appsheet.com"
  | _ => false

/-- The maxRetries check (src/unnamed/part_001 line 208): typeof must be
number and the value must not be below 1, so on the integer model of JS
numbers it passes exactly on numbers `≥ 1`.  (The JS check additionally
accepts the number NaN, because NaN < 1 is false; NaN has no integer
counterpart and lies outside this model.) -/
def isValidRetries : JsVal → Bool
  | .jNum n => decide (1 ≤ n)
  | _ => false

/-- The declared default `appsheetRegion = "www.appsheet.com"`
(src/unnamed/part_001 line 198): a JS default parameter is substituted
exactly when the argument is undefined. -/
def defaultRegion : JsVal → JsVal
  | .jUndefined => .jStr "www.appsheet.com"
  | v => v

/-- The declared default `maxRetries = 2` (src/unnamed/part_001 line 198):
substituted exactly when the argument is undefined. -/
def defaultRetries : JsVal → JsVal
  | .jUndefined => .jNum 2
  | v => v

/-- The `app` factory (src/unnamed/part_001 lines 198-213): the declared
defaults are substituted for undefined region/maxRetries arguments, then
each validation guard throws its descriptive error in source order;
otherwise the `App` instance (here: the validated configuration) is
returned. -/
def app (appId applicationAccessKey appsheetRegion maxRetries : JsVal) :
    Except String (JsVal × JsVal × JsVal × JsVal) :=
  let region := defaultRegion appsheetRegion
  let retries := defaultRetries maxRetries
  if !isNonEmptyStr appId then
    .error "[AppSheet] - appId must be a valid string."
  else if !isNonEmptyStr applicationAccessKey then
    .error "[AppSheet] - applicationAccessKey must be a valid, non-empty string."
  else if !isValidRegion region then
    .error "[AppSheet] - appsheetRegion must be either www.appsheet.com or eu.appsheet.com."
  else if !isValidRetries retries then
    .error "[AppSheet] - maxRetries must be a valid non-zero number."
  else
    .ok (appId, applicationAccessKey, region, retries)

/-! ### Behaviour of the retry loop -/

/-- If the transport throws on attempts `a, …, k-1` and returns a response on
attempt `k < maxRetries`, the loop entered at `a` breaks with that response
after call `k`, having issued calls `0, …, k` in total. -/
theorem fetchLoop_ok (t : Nat → Except String HttpResp) (m a k : Nat)
    (r : HttpResp) (hak : a ≤ k) (hkm : k < m)
    (hfail : ∀ i, a ≤ i → i < k → ∃ e, t i = .error e)
    (hok : t k = .ok r) :
    fetchLoop t m a = (.ok r, k + 1) := by
  have ha : a < m := Nat.lt_of_le_of_lt hak hkm
  rcases Nat.eq_or_lt_of_le hak with heq | hlt
  · subst heq
    rw [fetchLoop, dif_pos ha, hok]
  · obtain ⟨e, he⟩ := hfail a (Nat.le_refl a) hlt
    have hnot : ¬ a + 1 ≥ m := by omega
    rw [fetchLoop, dif_pos ha]
    simp only [he]
    rw [if_neg hnot]
    exact fetchLoop_ok t m (a + 1) k r hlt hkm
      (fun i h1 h2 => hfail i (Nat.le_of_succ_le h1) h2) hok
termination_by k - a

/-- If the transport throws on every attempt from `a` up to the ceiling, the
loop entered at `a < maxRetries` throws the terminal error built from the
ceiling and the last cause, having issued calls up to attempt `m - 1`. -/
theorem fetchLoop_exhaust (t : Nat → Except String HttpResp) (m a : Nat)
    (es : Nat → String) (ha : a < m)
    (hfail : ∀ i, a ≤ i → i < m → t i = .error (es i)) :
    fetchLoop t m a = (.error (errMsg m (es (m - 1))), m) := by
  have he := hfail a (Nat.le_refl a) ha
  by_cases hend : a + 1 ≥ m
  · have hlast : a = m - 1 := by omega
    have hm : m - 1 + 1 = m := by omega
    rw [fetchLoop, dif_pos ha]
    simp only [he]
    rw [if_pos hend, hlast, hm]
  · rw [fetchLoop, dif_pos ha]
    simp only [he]
    rw [if_neg hend]
    exact fetchLoop_exhaust t m (a + 1) es (by omega)
      (fun i h1 h2 => hfail i (by omega) h2)
termination_by m - a

/-- The loop never issues more calls than the retry ceiling. -/
theorem fetchLoop_count_le (t : Nat → Except String HttpResp) (m a : Nat)
    (ha : a ≤ m) : (fetchLoop t m a).2 ≤ m := by
  by_cases h : a < m
  · rw [fetchLoop, dif_pos h]
    cases hta : t a with
    | ok r => dsimp only; omega
    | error e =>
      by_cases hend : a + 1 ≥ m
      · simp only [if_pos hend]; omega
      · simp only [if_neg hend]
        exact fetchLoop_count_le t m (a + 1) (by omega)
  · rw [fetchLoop, dif_neg h]
    exact ha
termination_by m - a

/-! ### Characterizations of the validation checks -/

theorem isNonEmptyStr_iff (v : JsVal) :
    isNonEmptyStr v = true ↔ ∃ s, v = JsVal.jStr s ∧ s ≠ "" := by
  cases v <;> simp [isNonEmptyStr]

theorem isValidRegion_iff (v : JsVal) :
    isValidRegion v = true ↔
      v = JsVal.jStr "www.appsheet.com" ∨ v = JsVal.jStr "eu.appsheet.com" := by
  cases v <;> simp [isValidRegion]

theorem isValidRetries_iff (v : JsVal) :
    isValidRetries v = true ↔ ∃ n : Int, v = JsVal.jNum n ∧ 1 ≤ n := by
  cases v <;> simp [isValidRetries]

/-- An empty filter string and an absent filter build the same selector. -/
theorem buildSelector_empty_filter (t : String) (c : Option String) (d : Bool)
    (n : Option Int) :
    buildSelector t (some "") c d n = buildSelector t none c d n := by
  unfold buildSelector
  simp

/-! ### Claim theorems -/

/-- C8: every falsy input to the record normalizer yields the empty sequence;
every truthy non-array input yields the one-element sequence containing that
input unchanged; every array input is returned unchanged (order preserved). -/
theorem normalizeRecords_spec (v : JsVal) :
    (truthy v = false → normalizeRecords v = []) ∧
    (truthy v = true → (∀ l, v ≠ JsVal.jArr l) → normalizeRecords v = [v]) ∧
    (∀ l, v = JsVal.jArr l → normalizeRecords v = l) := by
  refine ⟨?_, ?_, ?_⟩
  · intro hf
    simp [normalizeRecords, hf]
  · intro ht hna
    cases v <;> simp_all [normalizeRecords, truthy]
  · rintro l rfl
    simp [normalizeRecords, truthy]

/-- Witness for C8 at the truthy non-array input `5` and the falsy input
`null`. -/
theorem normalizeRecords_spec_witness :
    normalizeRecords (JsVal.jNum 5) = [JsVal.jNum 5] ∧
    normalizeRecords JsVal.jNull = [] :=
  ⟨(normalizeRecords_spec (JsVal.jNum 5)).2.1 (by decide)
      (fun _ h => JsVal.noConfusion h),
   (normalizeRecords_spec JsVal.jNull).1 rfl⟩

/-- Counterexample to C7 as stated: an undefined region argument is neither
of the two accepted host literals, yet construction succeeds and returns a
client, because the declared default `www.appsheet.com` is substituted
(src/unnamed/part_001 line 198) before validation runs — so the claimed
"error iff the region is neither literal" biconditional fails here. -/
theorem app_validation_cex :
    (JsVal.jUndefined ≠ JsVal.jStr "www.appsheet.com" ∧
     JsVal.jUndefined ≠ JsVal.jStr "eu.appsheet.com") ∧
    app (JsVal.jStr "A") (JsVal.jStr "K") JsVal.jUndefined (JsVal.jNum 2) =
      .ok (JsVal.jStr "A", JsVal.jStr "K", JsVal.jStr "www.appsheet.com",
           JsVal.jNum 2) :=
  ⟨⟨fun h => JsVal.noConfusion h, fun h => JsVal.noConfusion h⟩, rfl⟩

/-- C7 amended: after substituting the declared defaults (region
`www.appsheet.com`, maxRetries `2`) for undefined arguments, construction
fails with a configuration error exactly when the app id is not a non-empty
string, or the access key is not a non-empty string, or the defaulted region
is neither `www.appsheet.com` nor `eu.appsheet.com`, or the defaulted
maxRetries is not a number `≥ 1` (JS numbers modelled as integers; the NaN
the source check also accepts has no integer counterpart); on every other
input the validated App value is returned, so validation happens at
construction, not at first use. -/
theorem app_validation_amended (a k r m : JsVal) :
    (∃ e, app a k r m = .error e) ↔
      (¬ ∃ s, a = JsVal.jStr s ∧ s ≠ "") ∨
      (¬ ∃ s, k = JsVal.jStr s ∧ s ≠ "") ∨
      (defaultRegion r ≠ JsVal.jStr "www.appsheet.com" ∧
       defaultRegion r ≠ JsVal.jStr "eu.appsheet.com") ∨
      (¬ ∃ n : Int, defaultRetries m = JsVal.jNum n ∧ 1 ≤ n) := by
  rw [← isNonEmptyStr_iff a, ← isNonEmptyStr_iff k,
    ← isValidRetries_iff (defaultRetries m)]
  have hr : (defaultRegion r ≠ JsVal.jStr "www.appsheet.com" ∧
      defaultRegion r ≠ JsVal.jStr "eu.appsheet.com") ↔
      ¬ (isValidRegion (defaultRegion r) = true) := by
    rw [isValidRegion_iff]
    tauto
  rw [hr]
  unfold app
  by_cases h1 : isNonEmptyStr a = true <;> by_cases h2 : isNonEmptyStr k = true <;>
    by_cases h3 : isValidRegion (defaultRegion r) = true <;>
    by_cases h4 : isValidRetries (defaultRetries m) = true <;>
    simp [h1, h2, h3, h4]

/-- C9: `find` substitutes the default filter `TRUE` for the empty-string
filter condition exactly as for an absent one: the issued request is
identical, and the selector is `Filter(table, TRUE)`. -/
theorem find_empty_filter_eq_absent (parse : String → Option JsVal)
    (transport : Transport) (m : Nat) (t : String) (c : Option String)
    (d : Bool) (n : Option Int) :
    find parse transport m t (some "") c d n =
      find parse transport m t none c d n ∧
    buildSelector t (some "") none false none = "Filter(" ++ t ++ ", TRUE)" := by
  constructor
  · unfold find
    rw [buildSelector_empty_filter]
  · rw [buildSelector_empty_filter]
    simp only [buildSelector, String.append_assoc]
    rfl

/-- The selector composition as claim C2 words it: the base is
`Filter(t, f)` with `TRUE` for an absent filter; the base is wrapped in
`OrderBy` with the bracketed column and the `TRUE`/`FALSE` ascending literal
when an order column is given; the result is wrapped in `Top` exactly when a
positive numeric limit is given. -/
def buildSelectorSpec (t : String) (f : Option String) (c : Option String)
    (d : Bool) (n : Option Int) : String :=
  let base := "Filter(" ++ t ++ ", " ++ f.getD "TRUE" ++ ")"
  let ordered := match c with
    | none => base
    | some col =>
      let bcol := if startsWithBracket col then col else "[" ++ col ++ "]"
      "OrderBy(" ++ base ++ ", " ++ bcol ++ ", " ++
        (if d then "FALSE" else "TRUE") ++ ")"
  match n with
  | some l => if l > 0 then "Top(" ++ ordered ++ ", " ++ toString l ++ ")" else ordered
  | none => ordered

/-- C2: for every table, filter, order column, descending flag and limit
(the filter and order column being honest strings when present), the selector
built by `find` is the fixed filter→order→limit composition described by the
specification. -/
theorem buildSelector_matches_spec (t : String) (f c : Option String)
    (d : Bool) (n : Option Int) (hf : f ≠ some "") (hc : c ≠ some "") :
    buildSelector t f c d n = buildSelectorSpec t f c d n := by
  unfold buildSelector buildSelectorSpec
  cases f with
  | none =>
    cases c with
    | none => rfl
    | some col =>
      have hcol : col ≠ "" := by simpa using hc
      simp [hcol]
  | some s =>
    have hs : s ≠ "" := by simpa using hf
    cases c with
    | none => simp [hs]
    | some col =>
      have hcol : col ≠ "" := by simpa using hc
      simp [hs, hcol]

/-- Witness for C2 at the specification's concrete example. -/
theorem buildSelector_matches_spec_witness :
    buildSelector "T" (some "X=1") (some "name") false (some 5) =
      "Top(OrderBy(Filter(T, X=1), [name], TRUE), 5)" := by
  rw [buildSelector_matches_spec "T" (some "X=1") (some "name") false (some 5)
    (by decide) (by decide)]
  rfl

/-- C6: the wire payload is `{Action, Rows}`; the `Properties` field holding
the selector is present exactly for a supplied (truthy) selector; with no
selector the `Properties` key is absent from the payload, in particular it is
never present with a null value. -/
theorem buildPayload_spec (action : String) (rows : List JsVal) :
    (buildPayload action rows none =
      [("Action", JsVal.jStr action), ("Rows", JsVal.jArr rows)]) ∧
    (∀ s, s ≠ "" → buildPayload action rows (some s) =
      [("Action", JsVal.jStr action), ("Rows", JsVal.jArr rows),
       ("Properties", JsVal.jObj [("Selector", JsVal.jStr s)])]) ∧
    (∀ sel, lookupField (buildPayload action rows sel) "Properties" ≠ none →
      ∃ s, sel = some s ∧ s ≠ "") ∧
    lookupField (buildPayload action rows none) "Properties" = none := by
  refine ⟨rfl, ?_, ?_, rfl⟩
  · intro s hs
    simp [buildPayload, hs]
  · intro sel hsel
    match sel with
    | none => exact absurd rfl hsel
    | some s =>
      by_cases hs : s = ""
      · subst hs
        simp [buildPayload, lookupField] at hsel
      · exact ⟨s, rfl, hs⟩

/-- Witness for C6 with a concrete selector. -/
theorem buildPayload_spec_witness :
    buildPayload "Find" [] (some "Filter(T, TRUE)") =
      [("Action", JsVal.jStr "Find"), ("Rows", JsVal.jArr []),
       ("Properties", JsVal.jObj [("Selector", JsVal.jStr "Filter(T, TRUE)")])] :=
  (buildPayload_spec "Find" []).2.1 "Filter(T, TRUE)" (by decide)

/-- C10: the filter condition `findByKey` hands to `find` is the plain
concatenation with no escaping, and it is not injective in the presence of a
double quote in the key value: a value containing `"` yields the very same
server-side expression as a differently structured column/value pair. -/
theorem findByKeyFilter_spec (kc kv : String) :
    findByKeyFilter kc kv = "[" ++ kc ++ "] = \"" ++ kv ++ "\"" ∧
    findByKeyFilter "X" "y\", [Z] = \"w" =
      findByKeyFilter "X] = \"y\", [Z" "w" := by
  constructor
  · rfl
  · rfl

/-- C3: response interpretation is total — for every HTTP status and body it
returns an `ApiResponse` carrying that status; the content is the parsed
JSON when the body parses, the raw body text on parse failure, or null when
the failing body is empty; `rowsReturned` is the array length for array
content, the length of the `rows` array for object content holding one, and
`0` in every other case. -/
theorem interpretResponse_spec (parse : String → Option JsVal) (code : Int)
    (body : String) :
    (interpretResponse parse ⟨code, body⟩).code = code ∧
    (∀ j, parse body = some j →
      (interpretResponse parse ⟨code, body⟩).content = j) ∧
    (parse body = none → body = "" →
      (interpretResponse parse ⟨code, body⟩).content = JsVal.jNull) ∧
    (parse body = none → body ≠ "" →
      (interpretResponse parse ⟨code, body⟩).content = JsVal.jStr body) ∧
    (∀ l, (interpretResponse parse ⟨code, body⟩).content = JsVal.jArr l →
      (interpretResponse parse ⟨code, body⟩).rowsReturned = l.length) ∧
    (∀ fields r,
      (interpretResponse parse ⟨code, body⟩).content = JsVal.jObj fields →
      lookupField fields "rows" = some (JsVal.jArr r) →
      (interpretResponse parse ⟨code, body⟩).rowsReturned = r.length) ∧
    ((∀ l, (interpretResponse parse ⟨code, body⟩).content ≠ JsVal.jArr l) →
      (∀ fields r,
        ¬ ((interpretResponse parse ⟨code, body⟩).content = JsVal.jObj fields ∧
           lookupField fields "rows" = some (JsVal.jArr r))) →
      (interpretResponse parse ⟨code, body⟩).rowsReturned = 0) := by
  refine ⟨rfl, ?_, ?_, ?_, ?_, ?_, ?_⟩
  · intro j hj
    simp [interpretResponse, interpretContent, hj]
  · intro hn hb
    subst hb
    simp [interpretResponse, interpretContent, hn]
  · intro hn hb
    simp [interpretResponse, interpretContent, hn, hb]
  · intro l hl
    simp only [interpretResponse] at hl ⊢
    rw [hl]
    rfl
  · intro fields r hl hlk
    simp only [interpretResponse] at hl ⊢
    rw [hl]
    simp [parseRowsReturned, hlk]
  · intro h1 h2
    have h1' : ∀ l, interpretContent parse body ≠ JsVal.jArr l := h1
    have h2' : ∀ fields r, ¬ (interpretContent parse body = JsVal.jObj fields ∧
        lookupField fields "rows" = some (JsVal.jArr r)) := h2
    show parseRowsReturned (interpretContent parse body) = 0
    obtain ⟨c, hc⟩ : ∃ c, interpretContent parse body = c := ⟨_, rfl⟩
    rw [hc] at h1' h2' ⊢
    cases c with
    | jArr l => exact absurd rfl (h1' l)
    | jObj fields =>
      rcases hlk : lookupField fields "rows" with _ | v
      · simp [parseRowsReturned, hlk]
      · cases v with
        | jArr r => exact absurd ⟨rfl, hlk⟩ (h2' fields r)
        | jNull => simp [parseRowsReturned, hlk]
        | jUndefined => simp [parseRowsReturned, hlk]
        | jBool b => simp [parseRowsReturned, hlk]
        | jNum n => simp [parseRowsReturned, hlk]
        | jStr s => simp [parseRowsReturned, hlk]
        | jObj o => simp [parseRowsReturned, hlk]
    | jNull => rfl
    | jUndefined => rfl
    | jBool b => rfl
    | jNum n => rfl
    | jStr s => rfl

/-- Witness for C3: a non-JSON body on a 500 response degrades to the raw
text with row count 0. -/
theorem interpretResponse_spec_witness :
    (interpretResponse (fun _ => none) ⟨500, "not json"⟩).content =
      JsVal.jStr "not json" ∧
    (interpretResponse (fun _ => none) ⟨500, "not json"⟩).rowsReturned = 0 :=
  ⟨(interpretResponse_spec (fun _ => none) 500 "not json").2.2.2.1 rfl
      (by decide),
   (interpretResponse_spec (fun _ => none) 500 "not json").2.2.2.2.2.2
      (fun l h => JsVal.noConfusion
        (show JsVal.jStr "not json" = JsVal.jArr l from h))
      (fun fields r hclash => JsVal.noConfusion
        (show JsVal.jStr "not json" = JsVal.jObj fields from hclash.1))⟩

/-- C1: with a retry ceiling `maxRetries ≥ 1`: if the transport throws on the
first `k < maxRetries` attempts and returns a response on attempt `k+1`, the
executor returns that response interpreted, having issued exactly `k+1`
network calls; if the transport throws on every attempt, the executor raises
the terminal error whose message reports the `maxRetries` attempts made and
the last underlying cause, after exactly `maxRetries` calls; and the number
of calls issued never exceeds `maxRetries`. -/
theorem makeRequest_retry_spec (parse : String → Option JsVal)
    (transport : Transport) (m : Nat) (hm : 1 ≤ m) (action : String)
    (rows : List JsVal) (selector : Option String) :
    (∀ k r, k < m →
      (∀ i, i < k → ∃ e, transport (buildPayload action rows selector) i = .error e) →
      transport (buildPayload action rows selector) k = .ok r →
      makeRequest parse transport m action rows selector =
        (.ok (interpretResponse parse r), k + 1)) ∧
    (∀ es : Nat → String,
      (∀ i, i < m → transport (buildPayload action rows selector) i = .error (es i)) →
      makeRequest parse transport m action rows selector =
        (.error (errMsg m (es (m - 1))), m)) ∧
    (makeRequest parse transport m action rows selector).2 ≤ m := by
  refine ⟨?_, ?_, ?_⟩
  · intro k r hk hfail hok
    simp only [makeRequest]
    rw [fetchLoop_ok (transport (buildPayload action rows selector)) m 0 k r
      (Nat.zero_le k) hk (fun i _ h2 => hfail i h2) hok]
  · intro es hfail
    simp only [makeRequest]
    rw [fetchLoop_exhaust (transport (buildPayload action rows selector)) m 0 es
      (by omega) (fun i _ h2 => hfail i h2)]
  · simp only [makeRequest]
    have hle := fetchLoop_count_le (transport (buildPayload action rows selector))
      m 0 (Nat.zero_le m)
    rcases hfl : fetchLoop (transport (buildPayload action rows selector)) m 0
      with ⟨res, cnt⟩
    rw [hfl] at hle
    cases res with
    | error e => simpa using hle
    | ok r => simpa using hle

/-- A parse stub for the witnesses: only the body `[]` parses (to the empty
array). -/
def parseW : String → Option JsVal :=
  fun s => if s = "[]" then some (.jArr []) else none

/-- A transport for the C1 witness: throws on attempt 0, then answers 200. -/
def transportW : Transport :=
  fun _ i => if i = 0 then .error "boom" else .ok ⟨200, "[]"⟩

/-- Witness for C1: one failure then success under ceiling 2 yields the
interpreted 200 response after exactly 2 calls. -/
theorem makeRequest_retry_spec_witness :
    makeRequest parseW transportW 2 "Find" [] none =
      (.ok ⟨200, JsVal.jArr [], 0⟩, 2) := by
  have h := (makeRequest_retry_spec parseW transportW 2 (by decide) "Find" []
      none).1 1 ⟨200, "[]"⟩ (by decide)
    (fun i hi => by
      interval_cases i
      exact ⟨"boom", rfl⟩)
    rfl
  rw [h]
  rfl

/-- C5: once the transport returns an HTTP response — whatever the status
code, 4xx/5xx included — the executor issues no further network call: the
loop completes normally after exactly `k+1` calls with that status code in
the result; only thrown transport exceptions lead to further attempts. -/
theorem makeRequest_no_retry_on_status (parse : String → Option JsVal)
    (transport : Transport) (m : Nat) (action : String) (rows : List JsVal)
    (selector : Option String) (k : Nat) (code : Int) (body : String)
    (hk : k < m)
    (hfail : ∀ i, i < k → ∃ e, transport (buildPayload action rows selector) i = .error e)
    (hok : transport (buildPayload action rows selector) k = .ok ⟨code, body⟩) :
    (makeRequest parse transport m action rows selector).2 = k + 1 ∧
    ∃ resp : ApiResponse,
      (makeRequest parse transport m action rows selector).1 = .ok resp ∧
      resp.code = code := by
  simp only [makeRequest]
  rw [fetchLoop_ok (transport (buildPayload action rows selector)) m 0 k
    ⟨code, body⟩ (Nat.zero_le k) hk (fun i _ h2 => hfail i h2) hok]
  exact ⟨rfl, interpretResponse parse ⟨code, body⟩, rfl, rfl⟩

/-- A transport for the C5 witness: always answers with a 500 error page. -/
def transportErrPage : Transport :=
  fun _ _ => .ok ⟨500, "Server Error"⟩

/-- Witness for C5: a first-attempt 500 response under ceiling 3 ends the
loop after a single call, surfacing status 500 as a normal result. -/
theorem makeRequest_no_retry_on_status_witness :
    (makeRequest parseW transportErrPage 3 "Find" [] none).2 = 0 + 1 ∧
    ∃ resp : ApiResponse,
      (makeRequest parseW transportErrPage 3 "Find" [] none).1 = .ok resp ∧
      resp.code = 500 :=
  makeRequest_no_retry_on_status parseW transportErrPage 3 "Find" [] none 0 500
    "Server Error" (by decide) (fun i hi => absurd hi (Nat.not_lt_zero i)) rfl

/-- C4: `findByKey` issues a `find` whose filter condition is the key
equality `[keyColumn] = "keyValue"` and performs no query logic of its own:
a thrown find error propagates, a non-200 find result is returned unchanged,
and a 200 result is returned with the first record as content (null when the
result set is empty) and `rowsReturned` recomputed as 1 or 0. -/
theorem findByKey_spec (parse : String → Option JsVal) (transport : Transport)
    (m : Nat) (tbl kc kv : String) :
    (∀ e n, find parse transport m tbl (some (findByKeyFilter kc kv))
        none false none = (.error e, n) →
      findByKey parse transport m tbl kc kv = (.error e, n)) ∧
    (∀ res n, find parse transport m tbl (some (findByKeyFilter kc kv))
        none false none = (.ok res, n) →
      res.code ≠ 200 →
      findByKey parse transport m tbl kc kv = (.ok res, n)) ∧
    (∀ res n, find parse transport m tbl (some (findByKeyFilter kc kv))
        none false none = (.ok res, n) →
      res.code = 200 → res.content = JsVal.jArr [] →
      findByKey parse transport m tbl kc kv =
        (.ok { res with content := JsVal.jNull, rowsReturned := 0 }, n)) ∧
    (∀ res n fields rest, find parse transport m tbl
        (some (findByKeyFilter kc kv)) none false none = (.ok res, n) →
      res.code = 200 → res.content = JsVal.jArr (JsVal.jObj fields :: rest) →
      findByKey parse transport m tbl kc kv =
        (.ok { res with content := JsVal.jObj fields, rowsReturned := 1 }, n)) := by
  refine ⟨?_, ?_, ?_, ?_⟩
  · intro e n hf
    simp only [findByKey]
    rw [hf]
  · intro res n hf h200
    simp only [findByKey]
    rw [hf]
    simp only [if_pos h200]
  · intro res n hf h200 hcont
    simp only [findByKey]
    rw [hf]
    simp [h200, hcont, contentLengthPos, contentAtZero, truthy]
  · intro res n fields rest hf h200 hcont
    simp only [findByKey]
    rw [hf]
    simp [h200, hcont, contentLengthPos, contentAtZero, truthy]

/-- A parse stub for the C4 witness: every body parses to a one-record
array. -/
def parseOneRecord : String → Option JsVal :=
  fun _ => some (.jArr [.jObj [("id", JsVal.jStr "7")]])

/-- A transport for the C4 witness: always answers 200. -/
def transportOk : Transport :=
  fun _ _ => .ok ⟨200, "body"⟩

/-- Witness for C4: a 200 find with one matching record yields that record
with `rowsReturned` recomputed to 1. -/
theorem findByKey_spec_witness :
    findByKey parseOneRecord transportOk 1 "users" "id" "7" =
      (.ok ⟨200, JsVal.jObj [("id", JsVal.jStr "7")], 1⟩, 1) := by
  have hfind : find parseOneRecord transportOk 1 "users"
      (some (findByKeyFilter "id" "7")) none false none =
      (.ok ⟨200, JsVal.jArr [JsVal.jObj [("id", JsVal.jStr "7")]], 1⟩, 1) := by
    simp [find, makeRequest, fetchLoop, transportOk, parseOneRecord,
      interpretResponse, interpretContent, parseRowsReturned]
  exact (findByKey_spec parseOneRecord transportOk 1 "users" "id" "7").2.2.2
    ⟨200, JsVal.jArr [JsVal.jObj [("id", JsVal.jStr "7")]], 1⟩ 1
    [("id", JsVal.jStr "7")] [] hfind rfl rfl

end AppSheet
